import Mathlib

/-!
# Verification of the floresta_web synchronization controller (`src/main.js`)

This file gives a shallow embedding of the orchestration layer in
`src/main.js`: the block-download loop `update_tip`, the user-triggered
`sync_loop`, the watch-wallet handler `add_address_to_wallet`, the display
refresher `update_ui`, the startup routine `run`, and the periodic
`setInterval` tick.  The external WebAssembly collaborator (`FlorestaChain`)
is not part of the repository's JavaScript sources; it is modelled from the
spec as an abstract `Collaborator` parameter.

JavaScript exceptions are modelled with `Except` / explicit result types;
the non-terminating `while (true)` loop is modelled with fuel (`none` means
the fuel ran out, i.e. the loop had not yet terminated after that many
iterations).  Ghost fields (`applied`, `toggle_count`, `render_calls`,
`rendered`) record invocation histories; they influence nothing.

Two execution granularities are embedded.  `step` dispatches one handler
invocation to completion, which is faithful for the handlers' synchronous
paths.  `astep`/`runAEvents` give the interleaved semantics of the
single-threaded event loop: each fetch-apply loop suspends at its awaited
fetch round-trip as a pending `SyncTask`, and `respond` events resume it,
so in-flight loops from overlapping Start clicks and timer ticks can race
on the shared chain state exactly as in the browser.
-/

/-- A JSON value, as produced by `res.json()` in the browser. -/
inductive JsonVal where
  | null : JsonVal
  | bool : Bool → JsonVal
  | num : Int → JsonVal
  | str : String → JsonVal
  | arr : List JsonVal → JsonVal
  | obj : List (String × JsonVal) → JsonVal

namespace JsonVal

/-- JavaScript property access `v.k`: `some` when `v` is an object carrying
the key, `none` (JS `undefined`) otherwise. -/
def getField : JsonVal → String → Option JsonVal
  | obj fields, k => (fields.find? (fun p => p.1 == k)).map Prod.snd
  | _, _ => none

/-- JavaScript truthiness of a JSON value: `null`, `false`, `0` and `""` are
falsy; every object and array (even empty) is truthy. -/
def truthy : JsonVal → Bool
  | null => false
  | bool b => b
  | num n => n != 0
  | str s => s != ""
  | arr _ => true
  | obj _ => true

mutual

/-- Model of `JSON.stringify`, as used for the `accept_block(JSON.stringify(block.data))`
call.  Escaping is irrelevant to the claims; only determinism matters. -/
def stringify : JsonVal → String
  | null => "null"
  | bool true => "true"
  | bool false => "false"
  | num n => toString n
  | str s => "\"" ++ s ++ "\""
  | arr xs => "[" ++ stringifyList xs ++ "]"
  | obj fs => "\x7b" ++ stringifyFields fs ++ "\x7d"

def stringifyList : List JsonVal → String
  | [] => ""
  | [x] => stringify x
  | x :: y :: xs => stringify x ++ "," ++ stringifyList (y :: xs)

def stringifyFields : List (String × JsonVal) → String
  | [] => ""
  | [(k, v)] => "\"" ++ k ++ "\":" ++ stringify v
  | (k, v) :: f :: fs => "\"" ++ k ++ "\":" ++ stringify v ++ "," ++ stringifyFields (f :: fs)

end

/-- The field `body.data.block` of a parsed response, `none` when missing. -/
def dataBlockField (body : JsonVal) : Option JsonVal :=
  (body.getField "data").bind (fun d => d.getField "block")

end JsonVal

/-- Modelled from the spec: the external chain-state collaborator (the
`FlorestaChain` WebAssembly module) is not part of the repository's
JavaScript sources.  The spec describes it as a black box that validates
each submitted block (possibly rejecting it with a `ValidationError`),
whose derived attributes (`tip`, `difficulty`, `target`, `our_txs`) are
functions of the chain built so far — here indexed by height, since the
chain is extended strictly one block at a time — and that may reject a
watched address with an `InputError`. -/
structure Collaborator where
  /-- Does the collaborator accept this payload as the block at this height? -/
  acceptOk : Nat → String → Bool
  /-- The tip identifier after the block at the given height. -/
  tipAt : Nat → Nat
  /-- Difficulty after the block at the given height. -/
  diffAt : Nat → Nat
  /-- Target after the block at the given height. -/
  targetAt : Nat → Nat
  /-- Tracked-transaction summary after the block at the given height. -/
  txsAt : Nat → List String
  /-- The network name. -/
  network : String
  /-- Does `add_address` accept this address string? -/
  addrOk : String → Bool
  /-- The address returned by `get_random_address`. -/
  randomAddr : String

/-- The readable state of the `florestaChain` object (spec: ChainState).
`applied` is a ghost log of the heights of successfully applied blocks, in
order of application. -/
structure FlorestaChain where
  height : Nat
  tip : Nat
  ibd : Bool
  difficulty : Nat
  target : Nat
  our_txs : List String
  addresses : List String
  applied : List Nat
  deriving DecidableEq, Repr

/-- The chain after one more successfully applied block: height up by exactly
one, derived attributes refreshed, the applied height logged. -/
def applyBlockState (collab : Collaborator) (c : FlorestaChain) : FlorestaChain :=
  { c with
    height := c.height + 1
    tip := collab.tipAt (c.height + 1)
    difficulty := collab.diffAt (c.height + 1)
    target := collab.targetAt (c.height + 1)
    our_txs := collab.txsAt (c.height + 1)
    applied := c.applied ++ [c.height + 1] }

/-- Modelled from the spec: `florestaChain.accept_block(jsonString)` delegates
validation to the collaborator; on success the height increases by exactly 1
and the derived attributes are refreshed, on failure it throws a
`ValidationError` and leaves the chain untouched. -/
def accept_block (collab : Collaborator) (c : FlorestaChain) (payload : String) :
    Except Unit FlorestaChain :=
  if collab.acceptOk (c.height + 1) payload then Except.ok (applyBlockState collab c)
  else Except.error ()

/-- Modelled from the spec: `florestaChain.add_address(a)` delegates to the
collaborator, which may reject the address (`InputError`); on success the
address joins the tracking set. -/
def add_address (collab : Collaborator) (c : FlorestaChain) (a : String) :
    Except Unit FlorestaChain :=
  if collab.addrOk a then Except.ok { c with addresses := c.addresses ++ [a] }
  else Except.error ()

/-- The operation `florestaChain.toggle_ibd()` flips the in-initial-sync flag. -/
def toggle_ibd (c : FlorestaChain) : FlorestaChain := { c with ibd := !c.ibd }

/-- Modelled from the spec: `new FlorestaChain()` builds a fresh chain at
height 0 with the genesis tip, in initial-block-download mode. -/
def newFlorestaChain (collab : Collaborator) : FlorestaChain :=
  { height := 0
    tip := collab.tipAt 0
    ibd := true
    difficulty := collab.diffAt 0
    target := collab.targetAt 0
    our_txs := []
    addresses := []
    applied := [] }

/-- Outcome of one `fetch` + `res.json()` round-trip in `update_tip`:
the `fetch` promise may reject (network error), `res.json()` may reject
(body is not JSON), or a parsed JSON body is obtained. -/
inductive FetchOutcome where
  | networkError : FetchOutcome
  | parseError : FetchOutcome
  | ok : JsonVal → FetchOutcome

/-- A block source: what the round-trip for each requested height yields. -/
def BlockSource : Type := Nat → FetchOutcome

/-- How the body of `update_tip` (main.js lines 59–70) classifies one
round-trip: a rejected `fetch`/`res.json()` promise is a thrown transport
error; otherwise the test `if (!block.data) break` treats a missing or falsy
`data` field as block-absent, and anything else as a present block whose
`data` payload is handed to `accept_block`. -/
inductive FetchResult where
  | transportError : FetchResult
  | absent : FetchResult
  | present : JsonVal → FetchResult

def classify_response : FetchOutcome → FetchResult
  | FetchOutcome.networkError => FetchResult.transportError
  | FetchOutcome.parseError => FetchResult.transportError
  | FetchOutcome.ok body =>
      match body.getField "data" with
      | none => FetchResult.absent
      | some d => if d.truthy then FetchResult.present d else FetchResult.absent

/-- The errors that can escape `update_tip` (spec taxonomy), each carrying
the height at which it was thrown. -/
inductive SyncError where
  | transport : Nat → SyncError
  | validation : Nat → SyncError
  deriving DecidableEq, Repr

/-- Result of `update_tip`: the loop either breaks out normally at the tip
(`done`) or throws (`failed`); either way the chain keeps the blocks applied
so far (mutation is in place). -/
inductive SyncResult where
  | done : FlorestaChain → SyncResult
  | failed : FlorestaChain → SyncError → SyncResult
  deriving DecidableEq, Repr

/-- The chain state carried by a `SyncResult`. -/
def SyncResult.chainOf : SyncResult → FlorestaChain
  | SyncResult.done c => c
  | SyncResult.failed c _ => c

/-- The `while (true)` body of `update_tip` (main.js lines 56–74), with the
local `height` counter read once before the loop and incremented after each
applied block.  `none` means the fuel ran out before the loop terminated. -/
def update_tip_loop (source : BlockSource) (collab : Collaborator) :
    FlorestaChain → Nat → Nat → Option SyncResult
  | _, _, 0 => none
  | c, height, fuel + 1 =>
      match classify_response (source height) with
      | FetchResult.transportError => some (SyncResult.failed c (SyncError.transport height))
      | FetchResult.absent => some (SyncResult.done c)
      | FetchResult.present d =>
          match accept_block collab c d.stringify with
          | Except.ok c' => update_tip_loop source collab c' (height + 1) fuel
          | Except.error _ => some (SyncResult.failed c (SyncError.validation height))

/-- Function `update_tip` (main.js lines 54–75): `let height = florestaChain.height + 1`
then the fetch-apply loop. -/
def update_tip (source : BlockSource) (collab : Collaborator) (c : FlorestaChain)
    (fuel : Nat) : Option SyncResult :=
  update_tip_loop source collab c (c.height + 1) fuel

/-- A snapshot of the derived chain attributes plus the tracked-transaction
summary, as written to the page by `update_ui` (main.js lines 133–143). -/
structure Snapshot where
  tip : Nat
  height : Nat
  network : String
  ibd : Bool
  difficulty : Nat
  target : Nat
  our_txs : List String
  deriving DecidableEq, Repr

def snapshotOf (collab : Collaborator) (c : FlorestaChain) : Snapshot :=
  { tip := c.tip
    height := c.height
    network := collab.network
    ibd := c.ibd
    difficulty := c.difficulty
    target := c.target
    our_txs := c.our_txs }

/-- The page-level state of main.js: the `florestaChain` and `last_tip`
globals, the Start button's `disabled` property, and the wallet input
field's `value`.  `rendered` is the ghost history of snapshots written to
the display region, `render_calls` the ghost count of `update_ui`
invocations, and `toggle_count` the ghost count of `toggle_ibd`
invocations. -/
structure AppState where
  chain : FlorestaChain
  last_tip : Nat
  start_disabled : Bool
  wallet_field : String
  rendered : List Snapshot
  render_calls : Nat
  toggle_count : Nat
  deriving DecidableEq, Repr

/-- Function `update_ui` (main.js lines 126–144): if the tip equals `last_tip`,
return without touching anything; otherwise record the new tip and write
the snapshot of the chain attributes and `our_txs` to the page. -/
def update_ui (collab : Collaborator) (s : AppState) : AppState :=
  if s.chain.tip == s.last_tip then s
  else { s with
    last_tip := s.chain.tip
    rendered := s.rendered ++ [snapshotOf collab s.chain] }

/-- Helper: `update_ui` preceded by the ghost invocation count bump, used at every
call site of `update_ui()` in main.js. -/
def call_update_ui (collab : Collaborator) (s : AppState) : AppState :=
  update_ui collab { s with render_calls := s.render_calls + 1 }

/-- Function `sync_loop` (main.js lines 94–99): `await update_tip()`, then
`toggle_ibd()`, `update_ui()` and disabling of the Start button.  A rejection
of `update_tip` propagates out of `sync_loop` (it is `await`ed with no
`catch`), skipping the three follow-up statements; the second component
reports that escaped error, `none` meaning normal completion. -/
def sync_loop (source : BlockSource) (collab : Collaborator) (s : AppState)
    (fuel : Nat) : Option (AppState × Option SyncError) :=
  match update_tip source collab s.chain fuel with
  | none => none
  | some (SyncResult.failed c e) => some ({ s with chain := c }, some e)
  | some (SyncResult.done c) =>
      let s1 : AppState :=
        { s with chain := toggle_ibd c, toggle_count := s.toggle_count + 1 }
      let s2 := call_update_ui collab s1
      some ({ s2 with start_disabled := true }, none)

/-- Result of `add_address_to_wallet`: `ok` when `add_address` returned,
`err` when it threw (the throw propagates out of the handler, so the
`wallet.value = ""` line never runs). -/
inductive AddResult where
  | ok : AppState → AddResult
  | err : AppState → AddResult
  deriving DecidableEq, Repr

/-- The app state carried by an `AddResult`. -/
def AddResult.stateOf : AddResult → AppState
  | AddResult.ok s => s
  | AddResult.err s => s

/-- Function `add_address_to_wallet` (main.js lines 87–92): read the wallet input
field, pass its value to `florestaChain.add_address`, then clear the
field. -/
def add_address_to_wallet (collab : Collaborator) (s : AppState) : AddResult :=
  match add_address collab s.chain s.wallet_field with
  | Except.ok c => AddResult.ok { s with chain := c, wallet_field := "" }
  | Except.error _ => AddResult.err s

/-- Function `run` (main.js lines 102–114): construct the fresh chain, render once,
wire the button handlers and enable the Start button. -/
def run (collab : Collaborator) : AppState :=
  let s : AppState :=
    { chain := newFlorestaChain collab
      last_tip := 0
      start_disabled := true
      wallet_field := ""
      rendered := []
      render_calls := 0
      toggle_count := 0 }
  let s1 := call_update_ui collab s
  { s1 with start_disabled := false }

/-- The two externally triggered entry points into the controller: a click
on the Start button and a firing of the `setInterval` timer. -/
inductive Event where
  | startClick : Event
  | timerTick : Event
  deriving DecidableEq, Repr

/-- One event dispatch, run to completion (single-threaded, atomic events).
A click on a disabled button is not delivered.  The timer callback
(main.js lines 117–124) renders, then returns early while `ibd` is set,
otherwise runs `update_tip` (whose rejection, if any, is unhandled and
whose partial progress is kept). -/
def step (source : BlockSource) (collab : Collaborator) (fuel : Nat)
    (s : AppState) : Event → Option AppState
  | Event.startClick =>
      if s.start_disabled then some s
      else
        match sync_loop source collab s fuel with
        | none => none
        | some (s', _) => some s'
  | Event.timerTick =>
      let s1 := call_update_ui collab s
      if s1.chain.ibd then some s1
      else
        match update_tip source collab s1.chain fuel with
        | none => none
        | some r => some { s1 with chain := r.chainOf }

/-- The fetch at this height yields a parsed body with a truthy `data` field
that the collaborator accepts as the next block. -/
def presentAccepted (source : BlockSource) (collab : Collaborator) (h : Nat) : Bool :=
  match classify_response (source h) with
  | FetchResult.present d => collab.acceptOk h d.stringify
  | _ => false

/-- The Sync Controller loop as the spec words it: on every iteration
recompute `nextHeight = ChainState.height + 1` and fetch that height.  Kept
separate from `update_tip` (which reads the height once and then increments
a local counter) for the refinement comparison. -/
def spec_update_tip (source : BlockSource) (collab : Collaborator) :
    FlorestaChain → Nat → Option SyncResult
  | _, 0 => none
  | c, fuel + 1 =>
      match classify_response (source (c.height + 1)) with
      | FetchResult.transportError =>
          some (SyncResult.failed c (SyncError.transport (c.height + 1)))
      | FetchResult.absent => some (SyncResult.done c)
      | FetchResult.present d =>
          match accept_block collab c d.stringify with
          | Except.ok c' => spec_update_tip source collab c' fuel
          | Except.error _ => some (SyncResult.failed c (SyncError.validation (c.height + 1)))

/-- Leading and trailing whitespace removed from a character list. -/
def trimChars (l : List Char) : List Char :=
  ((l.dropWhile Char.isWhitespace).reverse.dropWhile Char.isWhitespace).reverse

/-- Whitespace-trimming of a string (the `raw.trim()` the spec describes),
stated over the underlying character list so that it evaluates by `decide`. -/
def trimString (s : String) : String := ⟨trimChars s.data⟩

/-- A collaborator that accepts every block and every address, for concrete
instantiations. -/
def collabAll : Collaborator :=
  { acceptOk := fun _ _ => true
    tipAt := fun h => h + 100
    diffAt := fun _ => 1
    targetAt := fun _ => 7
    txsAt := fun _ => []
    network := "signet"
    addrOk := fun _ => true
    randomAddr := "tb1qexample" }

/-- A collaborator that accepts exactly the blocks at heights 1 and 2 and
rejects the block at height 3 (and beyond). -/
def collabLT3 : Collaborator := { collabAll with acceptOk := fun h _ => decide (h < 3) }

/-- A collaborator that rejects every watched address. -/
def collabRejectAddr : Collaborator := { collabAll with addrOk := fun _ => false }

/-- A source whose every response parses to a body with no `data` field. -/
def srcEmpty : BlockSource := fun _ => FetchOutcome.ok (JsonVal.obj [])

/-- A source serving a well-formed block for every height up to the cutoff
and an empty body above it. -/
def srcUpTo (K : Nat) : BlockSource := fun h =>
  if h ≤ K then
    FetchOutcome.ok (JsonVal.obj [("data", JsonVal.obj [("block", JsonVal.str "b")])])
  else FetchOutcome.ok (JsonVal.obj [])

/-- A source whose every fetch fails at the network layer. -/
def srcDown : BlockSource := fun _ => FetchOutcome.networkError

/-- The page state after startup with the given string typed into the wallet
input field. -/
def appW (collab : Collaborator) (w : String) : AppState :=
  { run collab with wallet_field := w }

/-- A page state whose displayed tip is stale (differs from the chain tip). -/
def sRender : AppState := { run collabAll with last_tip := 0 }

/-- The chain reached by accepting one block on the fresh chain. -/
def chain1 : FlorestaChain :=
  match accept_block collabAll (newFlorestaChain collabAll) "x" with
  | Except.ok c => c
  | Except.error _ => newFlorestaChain collabAll

/-- The page state after a Start click whose sync fails at the network
layer on the very first fetch. -/
def failedW : AppState :=
  ((sync_loop srcDown collabAll (run collabAll) 1).getD (run collabAll, none)).1

/-- The origin of an in-flight fetch-apply loop: a Start click (whose
completion runs the toggle/render/disable tail of `sync_loop`) or a timer
tick (whose `update_tip()` call is fire-and-forget, so its completion does
nothing more). -/
inductive TaskKind where
  | fromClick : TaskKind
  | fromTick : TaskKind
  deriving DecidableEq, Repr

/-- A fetch-apply loop suspended at its `await`ed fetch round-trip (the
`res.json()` await is merged into the round-trip): the loop's local
`height` counter names the requested height. -/
structure SyncTask where
  kind : TaskKind
  height : Nat
  deriving DecidableEq, Repr

/-- The page state together with the pending suspended loops, for the
interleaved (non-atomic) semantics of the single-threaded event loop. -/
structure AsyncState where
  app : AppState
  tasks : List SyncTask
  deriving DecidableEq, Repr

/-- Events of the interleaved semantics: the user clicks and timer ticks,
plus the resolution of the i-th pending fetch with a given outcome. -/
inductive AEvent where
  | startClick : AEvent
  | timerTick : AEvent
  | respond : Nat → FetchOutcome → AEvent

/-- The synchronous tail of a completed click-started `sync_loop`
(main.js lines 96–98): toggle, render, disable the Start button. -/
def clickCompletion (collab : Collaborator) (app : AppState) : AppState :=
  { call_update_ui collab
      { app with chain := toggle_ibd app.chain, toggle_count := app.toggle_count + 1 } with
    start_disabled := true }

/-- One event of the interleaved semantics, faithful to main.js's suspension
points: a handler runs synchronously until its next awaited fetch or its
completion.  A Start click on the enabled button runs `sync_loop` up to its
first fetch and suspends (the button is disabled only when the loop
completes, main.js line 98); a tick renders and, when `ibd` is clear, runs
an `update_tip` up to its first fetch; `respond i o` resumes the i-th
suspended loop with round-trip outcome `o`: it breaks on an absent block
(running the toggle/render/disable tail when click-started), applies a
present block to the shared chain and re-suspends at the next height, or
dies on a thrown transport / validation error (unhandled rejection). -/
def astep (collab : Collaborator) (σ : AsyncState) : AEvent → AsyncState
  | AEvent.startClick =>
      if σ.app.start_disabled then σ
      else { σ with tasks := σ.tasks ++ [⟨TaskKind.fromClick, σ.app.chain.height + 1⟩] }
  | AEvent.timerTick =>
      let app1 := call_update_ui collab σ.app
      if app1.chain.ibd then { σ with app := app1 }
      else { app := app1, tasks := σ.tasks ++ [⟨TaskKind.fromTick, app1.chain.height + 1⟩] }
  | AEvent.respond i o =>
      match σ.tasks.get? i with
      | none => σ
      | some t =>
          let rest := σ.tasks.eraseIdx i
          match classify_response o with
          | FetchResult.transportError => { σ with tasks := rest }
          | FetchResult.absent =>
              match t.kind with
              | TaskKind.fromTick => { σ with tasks := rest }
              | TaskKind.fromClick =>
                  { app := clickCompletion collab σ.app, tasks := rest }
          | FetchResult.present d =>
              match accept_block collab σ.app.chain d.stringify with
              | Except.ok c' =>
                  { app := { σ.app with chain := c' },
                    tasks := rest ++ [⟨t.kind, t.height + 1⟩] }
              | Except.error _ => { σ with tasks := rest }

/-- A whole interleaved session. -/
def runAEvents (collab : Collaborator) : AsyncState → List AEvent → AsyncState
  | σ, [] => σ
  | σ, e :: rest => runAEvents collab (astep collab σ e) rest

/-- The interleaved session's start: the freshly loaded page, nothing in
flight. -/
def asyncInit (collab : Collaborator) : AsyncState :=
  { app := run collab, tasks := [] }

/-- The number of click-started loops in a task list. -/
def clickCount (l : List SyncTask) : Nat :=
  l.countP (fun t => t.kind == TaskKind.fromClick)

/-- The number of pending click-started loops. -/
def clickTasksCount (σ : AsyncState) : Nat := clickCount σ.tasks

/-- A session is click-serialized when every Start click is dispatched while
no click-started loop is in flight — the explicit busy guard the spec's
section 9 recommends and the code lacks. -/
def clickSerialized (collab : Collaborator) : AsyncState → List AEvent → Bool
  | _, [] => true
  | σ, AEvent.startClick :: rest =>
      (clickTasksCount σ == 0) && clickSerialized collab (astep collab σ AEvent.startClick) rest
  | σ, e :: rest => clickSerialized collab (astep collab σ e) rest

/-- Two Start clicks racing while the source has no block at height 1 yet,
then the two empty-body responses. -/
def asyncEventsW : List AEvent :=
  [AEvent.startClick, AEvent.startClick,
   AEvent.respond 0 (FetchOutcome.ok (JsonVal.obj [])),
   AEvent.respond 0 (FetchOutcome.ok (JsonVal.obj []))]

/-- A single serialized Start click and its empty-body response. -/
def serializedEventsW : List AEvent :=
  [AEvent.startClick, AEvent.respond 0 (FetchOutcome.ok (JsonVal.obj []))]

/-- A state with one pending tick-started loop. -/
def tickTaskStateW : AsyncState :=
  { app := run collabAll, tasks := [⟨TaskKind.fromTick, 1⟩] }

/-! ## Helper lemmas -/

theorem accept_block_ok (collab : Collaborator) (c : FlorestaChain) (p : String)
    (h : collab.acceptOk (c.height + 1) p = true) :
    accept_block collab c p = Except.ok (applyBlockState collab c) := by
  simp [accept_block, h]

theorem accept_block_height (collab : Collaborator) (c c' : FlorestaChain) (p : String)
    (h : accept_block collab c p = Except.ok c') : c'.height = c.height + 1 := by
  unfold accept_block at h
  split at h
  · cases h; rfl
  · cases h

theorem accept_block_ibd (collab : Collaborator) (c c' : FlorestaChain) (p : String)
    (h : accept_block collab c p = Except.ok c') : c'.ibd = c.ibd := by
  unfold accept_block at h
  split at h
  · cases h; rfl
  · cases h

theorem update_ui_chain (collab : Collaborator) (s : AppState) :
    (update_ui collab s).chain = s.chain := by
  unfold update_ui; split <;> rfl

theorem update_ui_toggle_count (collab : Collaborator) (s : AppState) :
    (update_ui collab s).toggle_count = s.toggle_count := by
  unfold update_ui; split <;> rfl

theorem update_ui_start_disabled (collab : Collaborator) (s : AppState) :
    (update_ui collab s).start_disabled = s.start_disabled := by
  unfold update_ui; split <;> rfl

theorem update_ui_render_calls (collab : Collaborator) (s : AppState) :
    (update_ui collab s).render_calls = s.render_calls := by
  unfold update_ui; split <;> rfl

theorem call_update_ui_chain (collab : Collaborator) (s : AppState) :
    (call_update_ui collab s).chain = s.chain := by
  unfold call_update_ui; rw [update_ui_chain]

theorem call_update_ui_toggle_count (collab : Collaborator) (s : AppState) :
    (call_update_ui collab s).toggle_count = s.toggle_count := by
  unfold call_update_ui; rw [update_ui_toggle_count]

theorem call_update_ui_start_disabled (collab : Collaborator) (s : AppState) :
    (call_update_ui collab s).start_disabled = s.start_disabled := by
  unfold call_update_ui; rw [update_ui_start_disabled]

theorem call_update_ui_render_calls (collab : Collaborator) (s : AppState) :
    (call_update_ui collab s).render_calls = s.render_calls + 1 := by
  unfold call_update_ui; rw [update_ui_render_calls]

/-- Unfolding of one fuelled iteration of the fetch-apply loop. -/
theorem update_tip_loop_succ (source : BlockSource) (collab : Collaborator)
    (c : FlorestaChain) (h fuel : Nat) :
    update_tip_loop source collab c h (fuel + 1) =
      match classify_response (source h) with
      | FetchResult.transportError => some (SyncResult.failed c (SyncError.transport h))
      | FetchResult.absent => some (SyncResult.done c)
      | FetchResult.present d =>
          match accept_block collab c d.stringify with
          | Except.ok c' => update_tip_loop source collab c' (h + 1) fuel
          | Except.error _ => some (SyncResult.failed c (SyncError.validation h)) := rfl

/-- One loop iteration on a present, accepted block. -/
theorem update_tip_loop_present_step (source : BlockSource) (collab : Collaborator)
    (c : FlorestaChain) (h fuel : Nat) (d : JsonVal)
    (hcl : classify_response (source h) = FetchResult.present d)
    (hok : collab.acceptOk (c.height + 1) d.stringify = true) :
    update_tip_loop source collab c h (fuel + 1) =
      update_tip_loop source collab (applyBlockState collab c) (h + 1) fuel := by
  simp only [update_tip_loop_succ, hcl, accept_block_ok collab c d.stringify hok]

/-- One loop iteration on a present block the collaborator rejects. -/
theorem update_tip_loop_validation_step (source : BlockSource) (collab : Collaborator)
    (c : FlorestaChain) (h fuel : Nat) (d : JsonVal)
    (hcl : classify_response (source h) = FetchResult.present d)
    (hok : collab.acceptOk (c.height + 1) d.stringify = false) :
    update_tip_loop source collab c h (fuel + 1) =
      some (SyncResult.failed c (SyncError.validation h)) := by
  simp only [update_tip_loop_succ, hcl]
  simp [accept_block, hok]

/-- One loop iteration on an absent block: the loop breaks. -/
theorem update_tip_loop_absent_step (source : BlockSource) (collab : Collaborator)
    (c : FlorestaChain) (h fuel : Nat)
    (hcl : classify_response (source h) = FetchResult.absent) :
    update_tip_loop source collab c h (fuel + 1) = some (SyncResult.done c) := by
  rw [update_tip_loop_succ, hcl]

/-- One loop iteration on a transport failure: the exception propagates. -/
theorem update_tip_loop_transport_step (source : BlockSource) (collab : Collaborator)
    (c : FlorestaChain) (h fuel : Nat)
    (hcl : classify_response (source h) = FetchResult.transportError) :
    update_tip_loop source collab c h (fuel + 1) =
      some (SyncResult.failed c (SyncError.transport h)) := by
  rw [update_tip_loop_succ, hcl]

/-- The fetch-apply loop never touches the in-initial-sync flag. -/
theorem update_tip_loop_ibd (source : BlockSource) (collab : Collaborator) :
    ∀ (fuel : Nat) (c : FlorestaChain) (h : Nat) (r : SyncResult),
      update_tip_loop source collab c h fuel = some r → r.chainOf.ibd = c.ibd := by
  intro fuel
  induction fuel with
  | zero => intro c h r hr; simp [update_tip_loop] at hr
  | succ f ih =>
    intro c h r hr
    cases hcl : classify_response (source h) with
    | transportError =>
      rw [update_tip_loop_transport_step source collab c h f hcl] at hr
      cases hr; rfl
    | absent =>
      rw [update_tip_loop_absent_step source collab c h f hcl] at hr
      cases hr; rfl
    | present d =>
      cases hacc : collab.acceptOk (c.height + 1) d.stringify with
      | false =>
        rw [update_tip_loop_validation_step source collab c h f d hcl hacc] at hr
        cases hr; rfl
      | true =>
        rw [update_tip_loop_present_step source collab c h f d hcl hacc] at hr
        rw [ih (applyBlockState collab c) (h + 1) r hr]
        rfl

theorem update_ui_skip (collab : Collaborator) (s : AppState)
    (h : s.chain.tip = s.last_tip) : update_ui collab s = s := by
  simp [update_ui, h]

theorem update_ui_emit (collab : Collaborator) (s : AppState)
    (h : s.chain.tip ≠ s.last_tip) :
    update_ui collab s =
      { s with
        last_tip := s.chain.tip
        rendered := s.rendered ++ [snapshotOf collab s.chain] } := by
  simp [update_ui, h]

/-! ## Claim theorems -/

/-- C8: `update_ui` reads the current tip; if it equals the last-rendered tip
it returns the state unchanged (no side effects), otherwise it records the
new tip and appends exactly one snapshot of the derived chain attributes
plus the tracked-transaction summary; consequently it is idempotent and two
consecutive calls with no intervening tip change produce exactly one visible
update. -/
theorem C8_render_dedup (collab : Collaborator) (s : AppState) :
    (s.chain.tip = s.last_tip → update_ui collab s = s) ∧
    (s.chain.tip ≠ s.last_tip →
      update_ui collab s =
        { s with
          last_tip := s.chain.tip
          rendered := s.rendered ++ [snapshotOf collab s.chain] }) ∧
    update_ui collab (update_ui collab s) = update_ui collab s ∧
    (s.chain.tip ≠ s.last_tip →
      (update_ui collab (update_ui collab s)).rendered.length =
        s.rendered.length + 1) := by
  refine ⟨update_ui_skip collab s, update_ui_emit collab s, ?_, ?_⟩
  · by_cases h : s.chain.tip = s.last_tip
    · rw [update_ui_skip collab s h, update_ui_skip collab s h]
    · rw [update_ui_emit collab s h]
      exact update_ui_skip collab _ rfl
  · intro h
    rw [update_ui_emit collab s h, update_ui_skip collab _ rfl]
    simp

/-- C8 witness: on a state whose displayed tip is stale, one call emits the
snapshot and a second call changes nothing more. -/
theorem C8_witness :
    (update_ui collabAll (update_ui collabAll sRender)).rendered.length =
      sRender.rendered.length + 1 :=
  (C8_render_dedup collabAll sRender).2.2.2 (by decide)

/-- C5 counterexample: `add_address_to_wallet` does not trim the raw input
before forwarding it; with `" a"` in the input field the string added to the
watch set is `" a"`, not its trim `"a"`. -/
theorem C5_counterexample :
    ¬ (∀ (collab : Collaborator) (s r : AppState),
        add_address_to_wallet collab s = AddResult.ok r →
        r.chain.addresses = s.chain.addresses ++ [trimString s.wallet_field]) := by
  intro hclaim
  have h := hclaim collabAll (appW collabAll " a")
    ((add_address_to_wallet collabAll (appW collabAll " a")).stateOf) (by decide)
  revert h
  decide

/-- C5 amended: `add_address_to_wallet` forwards the raw input-field string
unmodified (no trimming) to `add_address`, and on success the input field is
left cleared. -/
theorem C5_forward_raw_and_clear (collab : Collaborator) (s : AppState)
    (h : collab.addrOk s.wallet_field = true) :
    add_address_to_wallet collab s =
      AddResult.ok
        { s with
          chain := { s.chain with addresses := s.chain.addresses ++ [s.wallet_field] }
          wallet_field := "" } := by
  simp [add_address_to_wallet, add_address, h]

/-- C5 witness: submitting the raw string `" a"` adds exactly `" a"` and
clears the field. -/
theorem C5_witness :
    add_address_to_wallet collabAll (appW collabAll " a") =
      AddResult.ok
        { appW collabAll " a" with
          chain := { (appW collabAll " a").chain with
                     addresses := (appW collabAll " a").chain.addresses ++ [" a"] }
          wallet_field := "" } :=
  C5_forward_raw_and_clear collabAll (appW collabAll " a") (by decide)

/-- C10: when `add_address` throws, the thrown error propagates before the
`wallet.value = ""` line, so the whole page state — in particular the input
field — is exactly as it was before the call. -/
theorem C10_field_retained_on_error (collab : Collaborator) (s : AppState)
    (h : collab.addrOk s.wallet_field = false) :
    add_address_to_wallet collab s = AddResult.err s := by
  simp [add_address_to_wallet, add_address, h]

/-- C10 witness: a rejected submission leaves the state untouched. -/
theorem C10_witness :
    add_address_to_wallet collabRejectAddr (appW collabRejectAddr " a") =
      AddResult.err (appW collabRejectAddr " a") :=
  C10_field_retained_on_error collabRejectAddr (appW collabRejectAddr " a") (by decide)

/-- C4 counterexample: the code tests `!block.data`, not `data.block`; a
response whose `data` field is present (an empty object) but lacks a
`data.block` field is classified as block-present, not BlockAbsent. -/
theorem C4_counterexample :
    ¬ (∀ body : JsonVal,
        classify_response (FetchOutcome.ok body) = FetchResult.absent ↔
        body.dataBlockField = none) := by
  intro hclaim
  have h := (hclaim (JsonVal.obj [("data", JsonVal.obj [])])).mpr rfl
  have hcalc :
      classify_response (FetchOutcome.ok (JsonVal.obj [("data", JsonVal.obj [])])) =
        FetchResult.present (JsonVal.obj []) := rfl
  rw [hcalc] at h
  exact FetchResult.noConfusion h

/-- C4 corrected: the client returns BlockAbsent exactly when the parsed
response lacks a truthy `data` field, and otherwise treats the block as
present with that whole `data` payload forwarded to `accept_block`
(whether or not `data.block` exists). -/
theorem C4_data_presence (body : JsonVal) :
    (classify_response (FetchOutcome.ok body) = FetchResult.absent ↔
      (∀ d, body.getField "data" = some d → d.truthy = false)) ∧
    (∀ d, body.getField "data" = some d → d.truthy = true →
      classify_response (FetchOutcome.ok body) = FetchResult.present d) := by
  constructor
  · cases hb : body.getField "data" with
    | none => simp [classify_response, hb]
    | some d =>
      cases ht : d.truthy with
      | true => simp [classify_response, hb, ht]
      | false => simp [classify_response, hb, ht]
  · intro d hd ht
    simp [classify_response, hd, ht]

/-- C4 witness: a body with a truthy `data` field is classified present with
that payload. -/
theorem C4_witness :
    classify_response (FetchOutcome.ok (JsonVal.obj [("data", JsonVal.str "x")])) =
      FetchResult.present (JsonVal.str "x") :=
  (C4_data_presence (JsonVal.obj [("data", JsonVal.str "x")])).2 (JsonVal.str "x") rfl rfl

/-- C7: transport failures (a rejected fetch or an unparsable body) are
classified as transport errors and never as BlockAbsent; BlockAbsent arises
only from a successfully parsed body; a transport failure makes the
fetch-apply loop halt with that `TransportError`, and `sync_loop` passes any
loop failure on to its caller. -/
theorem C7_transport_propagation (source : BlockSource) (collab : Collaborator)
    (c : FlorestaChain) (h fuel : Nat) :
    (classify_response FetchOutcome.networkError = FetchResult.transportError ∧
      classify_response FetchOutcome.parseError = FetchResult.transportError) ∧
    (∀ o : FetchOutcome, classify_response o = FetchResult.absent →
      ∃ body, o = FetchOutcome.ok body) ∧
    (classify_response (source h) = FetchResult.transportError →
      update_tip_loop source collab c h (fuel + 1) =
        some (SyncResult.failed c (SyncError.transport h))) ∧
    (∀ (s : AppState) (c' : FlorestaChain) (e : SyncError),
      update_tip source collab s.chain fuel = some (SyncResult.failed c' e) →
      sync_loop source collab s fuel = some ({ s with chain := c' }, some e)) := by
  refine ⟨⟨rfl, rfl⟩, ?_, ?_, ?_⟩
  · intro o ho
    cases o with
    | networkError => exact FetchResult.noConfusion ho
    | parseError => exact FetchResult.noConfusion ho
    | ok body => exact ⟨body, rfl⟩
  · intro hcl
    exact update_tip_loop_transport_step source collab c h fuel hcl
  · intro s c' e hu
    simp [sync_loop, hu]

/-- C7 witness: a network failure at height 1 halts the loop with a
transport error. -/
theorem C7_witness :
    update_tip_loop srcDown collabAll (newFlorestaChain collabAll) 1 1 =
      some (SyncResult.failed (newFlorestaChain collabAll) (SyncError.transport 1)) :=
  (C7_transport_propagation srcDown collabAll (newFlorestaChain collabAll) 1 0).2.2.1 rfl

/-- Unfolding of one fuelled iteration of the spec-side loop. -/
theorem spec_update_tip_succ (source : BlockSource) (collab : Collaborator)
    (c : FlorestaChain) (fuel : Nat) :
    spec_update_tip source collab c (fuel + 1) =
      match classify_response (source (c.height + 1)) with
      | FetchResult.transportError =>
          some (SyncResult.failed c (SyncError.transport (c.height + 1)))
      | FetchResult.absent => some (SyncResult.done c)
      | FetchResult.present d =>
          match accept_block collab c d.stringify with
          | Except.ok c' => spec_update_tip source collab c' fuel
          | Except.error _ =>
              some (SyncResult.failed c (SyncError.validation (c.height + 1))) := rfl

theorem update_tip_loop_eq_spec (source : BlockSource) (collab : Collaborator) :
    ∀ (fuel : Nat) (c : FlorestaChain),
      update_tip_loop source collab c (c.height + 1) fuel =
        spec_update_tip source collab c fuel := by
  intro fuel
  induction fuel with
  | zero => intro c; rfl
  | succ f ih =>
    intro c
    cases hcl : classify_response (source (c.height + 1)) with
    | transportError =>
      rw [update_tip_loop_transport_step source collab c _ f hcl]
      simp only [spec_update_tip_succ, hcl]
    | absent =>
      rw [update_tip_loop_absent_step source collab c _ f hcl]
      simp only [spec_update_tip_succ, hcl]
    | present d =>
      cases hacc : collab.acceptOk (c.height + 1) d.stringify with
      | true =>
        rw [update_tip_loop_present_step source collab c _ f d hcl hacc]
        simp only [spec_update_tip_succ, hcl,
          accept_block_ok collab c d.stringify hacc]
        exact ih (applyBlockState collab c)
      | false =>
        rw [update_tip_loop_validation_step source collab c _ f d hcl hacc]
        simp only [spec_update_tip_succ, hcl]
        simp [accept_block, hacc]

/-- C6: the loop as implemented (chain height read once before the loop, a
local counter incremented after each apply) is equivalent to the specified
loop that recomputes `nextHeight = height + 1` from the chain on every
iteration, under the invariant — guaranteed by `accept_block` — that every
successfully applied block raises the height by exactly 1. -/
theorem C6_local_counter_refines_spec (source : BlockSource) (collab : Collaborator) :
    (∀ (c c' : FlorestaChain) (p : String),
      accept_block collab c p = Except.ok c' → c'.height = c.height + 1) ∧
    (∀ (c : FlorestaChain) (fuel : Nat),
      update_tip source collab c fuel = spec_update_tip source collab c fuel) := by
  constructor
  · intro c c' p hp
    exact accept_block_height collab c c' p hp
  · intro c fuel
    exact update_tip_loop_eq_spec source collab fuel c

/-- C6 witness: one accepted block raises the fresh chain's height to 1. -/
theorem C6_witness : chain1.height = (newFlorestaChain collabAll).height + 1 :=
  (C6_local_counter_refines_spec srcEmpty collabAll).1
    (newFlorestaChain collabAll) chain1 "x" rfl

/-- Core induction for sync termination: with blocks present and accepted at
the next `K` heights and an absent response after them, the fetch-apply loop
applies exactly those `K` heights in ascending order and breaks. -/
theorem update_tip_applies (source : BlockSource) (collab : Collaborator) :
    ∀ (K fuel : Nat) (c : FlorestaChain), K + 1 ≤ fuel →
    (∀ i, i < K → presentAccepted source collab (c.height + 1 + i) = true) →
    classify_response (source (c.height + K + 1)) = FetchResult.absent →
    ∃ c', update_tip source collab c fuel = some (SyncResult.done c') ∧
      c'.height = c.height + K ∧
      c'.applied = c.applied ++ List.range' (c.height + 1) K ∧
      c'.ibd = c.ibd := by
  intro K
  induction K with
  | zero =>
    intro fuel c hfuel _ habs
    match fuel, hfuel with
    | f + 1, _ =>
      refine ⟨c, ?_, by simp, by simp, rfl⟩
      exact update_tip_loop_absent_step source collab c _ f (by simpa using habs)
  | succ K ih =>
    intro fuel c hfuel hpres habs
    match fuel, hfuel with
    | f + 1, hf =>
      have hf' : K + 1 ≤ f := by omega
      have h0 : presentAccepted source collab (c.height + 1) = true := by
        simpa using hpres 0 (Nat.succ_pos K)
      revert h0
      unfold presentAccepted
      cases seek : classify_response (source (c.height + 1)) with
      | transportError => intro h0; cases h0
      | absent => intro h0; cases h0
      | present d =>
        intro h0
        have hpres' : ∀ i, i < K →
            presentAccepted source collab ((applyBlockState collab c).height + 1 + i) = true := by
          intro i hi
          show presentAccepted source collab (c.height + 1 + 1 + i) = true
          have harg : c.height + 1 + 1 + i = c.height + 1 + (i + 1) := by omega
          rw [harg]
          exact hpres (i + 1) (by omega)
        have habs' :
            classify_response (source ((applyBlockState collab c).height + K + 1)) =
              FetchResult.absent := by
          show classify_response (source (c.height + 1 + K + 1)) = FetchResult.absent
          have harg : c.height + 1 + K + 1 = c.height + (K + 1) + 1 := by omega
          rw [harg]
          exact habs
        obtain ⟨c', hrun, hch, happ, hibd⟩ := ih f (applyBlockState collab c) hf' hpres' habs'
        have hch' : c'.height = c.height + 1 + K := hch
        have happ' : c'.applied =
            (c.applied ++ [c.height + 1]) ++ List.range' (c.height + 1 + 1) K := happ
        have hibd' : c'.ibd = c.ibd := hibd
        refine ⟨c', ?_, by omega, ?_, hibd'⟩
        · show update_tip_loop source collab c (c.height + 1) (f + 1) =
            some (SyncResult.done c')
          rw [update_tip_loop_present_step source collab c (c.height + 1) f d seek h0]
          exact hrun
        · rw [happ', List.append_assoc]
          congr 1

/-- C1: for every K, against a source that is block-present (and accepted)
for heights 1..K and block-absent at K+1, one `sync_loop` invocation from
height 0 applies exactly the K blocks 1..K in ascending order, terminates,
toggles the initial-sync flag exactly once, and re-renders the display. -/
theorem C1_sync_terminates (source : BlockSource) (collab : Collaborator)
    (K fuel : Nat) (s : AppState)
    (hh : s.chain.height = 0)
    (hpres : ∀ i, i < K → presentAccepted source collab (i + 1) = true)
    (habs : classify_response (source (K + 1)) = FetchResult.absent)
    (hfuel : K + 1 ≤ fuel) :
    ∃ s', sync_loop source collab s fuel = some (s', none) ∧
      s'.chain.height = K ∧
      s'.chain.applied = s.chain.applied ++ List.range' 1 K ∧
      s'.chain.ibd = (!s.chain.ibd) ∧
      s'.toggle_count = s.toggle_count + 1 ∧
      s'.render_calls = s.render_calls + 1 ∧
      s'.start_disabled = true := by
  obtain ⟨c', hrun, hch, happ, hibd⟩ :=
    update_tip_applies source collab K fuel s.chain hfuel
      (by
        intro i hi
        rw [hh]
        have harg : 0 + 1 + i = i + 1 := by omega
        rw [harg]
        exact hpres i hi)
      (by
        rw [hh]
        have harg : 0 + K + 1 = K + 1 := by omega
        rw [harg]
        exact habs)
  refine ⟨{ call_update_ui collab
      { s with chain := toggle_ibd c', toggle_count := s.toggle_count + 1 } with
      start_disabled := true }, ?_, ?_, ?_, ?_, ?_, ?_, rfl⟩
  · simp [sync_loop, hrun]
  · simp [call_update_ui_chain, toggle_ibd]
    omega
  · simp [call_update_ui_chain, toggle_ibd]
    rw [happ, hh]
  · simp [call_update_ui_chain, toggle_ibd, hibd]
  · simp [call_update_ui_toggle_count]
  · simp [call_update_ui_render_calls]

/-- C1 witness: with two blocks available and nothing at height 3, one
`sync_loop` from startup applies blocks 1 and 2, toggles once, re-renders
and disables the Start button. -/
theorem C1_witness :
    ∃ s', sync_loop (srcUpTo 2) collabAll (run collabAll) 3 = some (s', none) ∧
      s'.chain.height = 2 ∧
      s'.chain.applied = (run collabAll).chain.applied ++ List.range' 1 2 ∧
      s'.chain.ibd = (!(run collabAll).chain.ibd) ∧
      s'.toggle_count = (run collabAll).toggle_count + 1 ∧
      s'.render_calls = (run collabAll).render_calls + 1 ∧
      s'.start_disabled = true :=
  C1_sync_terminates (srcUpTo 2) collabAll 2 3 (run collabAll) rfl
    (by decide) rfl (by decide)

/-- C2: with blocks present and accepted at heights 1 and 2 and a present
block at height 3 that the collaborator rejects, `sync_loop` from height 0
applies exactly blocks 1 and 2, halts with a `ValidationError` at height 3,
leaves the chain height at 2, and — the result state differing from the
start state only in the chain — neither toggles the initial-sync flag nor
re-renders nor disables the Start button. -/
theorem C2_halt_on_validation (source : BlockSource) (collab : Collaborator)
    (s : AppState) (fuel : Nat) (d1 d2 d3 : JsonVal)
    (h1 : classify_response (source 1) = FetchResult.present d1)
    (ha1 : collab.acceptOk 1 d1.stringify = true)
    (h2 : classify_response (source 2) = FetchResult.present d2)
    (ha2 : collab.acceptOk 2 d2.stringify = true)
    (h3 : classify_response (source 3) = FetchResult.present d3)
    (ha3 : collab.acceptOk 3 d3.stringify = false)
    (hh : s.chain.height = 0)
    (hfuel : 3 ≤ fuel) :
    ∃ c', sync_loop source collab s fuel =
        some ({ s with chain := c' }, some (SyncError.validation 3)) ∧
      c'.height = 2 ∧
      c'.applied = s.chain.applied ++ [1, 2] ∧
      c'.ibd = s.chain.ibd := by
  obtain ⟨k, hk⟩ : ∃ k, fuel = k + 3 := ⟨fuel - 3, by omega⟩
  subst hk
  set c0 := s.chain with hc0
  have e1 : collab.acceptOk (c0.height + 1) d1.stringify = true := by rw [hh]; exact ha1
  set c1 := applyBlockState collab c0 with hc1
  have hc1h : c1.height = 1 := by rw [hc1, applyBlockState, hh]
  have e2 : collab.acceptOk (c1.height + 1) d2.stringify = true := by rw [hc1h]; exact ha2
  set c2 := applyBlockState collab c1 with hc2
  have hc2h : c2.height = 2 := by rw [hc2, applyBlockState]; rw [hc1h]
  have e3 : collab.acceptOk (c2.height + 1) d3.stringify = false := by rw [hc2h]; exact ha3
  have hrun : update_tip source collab c0 (k + 3) =
      some (SyncResult.failed c2 (SyncError.validation 3)) := by
    show update_tip_loop source collab c0 (c0.height + 1) (k + 3) =
      some (SyncResult.failed c2 (SyncError.validation 3))
    rw [hh]
    have step1 := update_tip_loop_present_step source collab c0 1 (k + 2) d1 h1 e1
    have step2 := update_tip_loop_present_step source collab c1 2 (k + 1) d2 h2 e2
    have step3 := update_tip_loop_validation_step source collab c2 3 k d3 h3 e3
    calc update_tip_loop source collab c0 1 (k + 3)
        = update_tip_loop source collab c1 2 (k + 2) := step1
      _ = update_tip_loop source collab c2 3 (k + 1) := step2
      _ = some (SyncResult.failed c2 (SyncError.validation 3)) := step3
  refine ⟨c2, ?_, hc2h, ?_, ?_⟩
  · simp [sync_loop, hrun]
  · rw [hc2, applyBlockState]
    simp only [hc1, applyBlockState]
    rw [hh]
    simp [List.append_assoc]
  · rw [hc2, applyBlockState]
    simp only [hc1, applyBlockState]

/-- C2 witness: against a source with blocks at every height and a
collaborator that rejects the third block, the loop stops at height 2. -/
theorem C2_witness :
    ∃ c', sync_loop (srcUpTo 9) collabLT3 (run collabLT3) 3 =
        some ({ run collabLT3 with chain := c' }, some (SyncError.validation 3)) ∧
      c'.height = 2 ∧
      c'.applied = (run collabLT3).chain.applied ++ [1, 2] ∧
      c'.ibd = (run collabLT3).chain.ibd :=
  C2_halt_on_validation (srcUpTo 9) collabLT3 (run collabLT3) 3
    (JsonVal.obj [("block", JsonVal.str "b")])
    (JsonVal.obj [("block", JsonVal.str "b")])
    (JsonVal.obj [("block", JsonVal.str "b")])
    rfl (by decide) rfl (by decide) rfl (by decide) rfl (by decide)


/-! ## Event-level lemmas and the toggle invariant -/

theorem sync_loop_none (source : BlockSource) (collab : Collaborator)
    (s : AppState) (fuel : Nat)
    (hu : update_tip source collab s.chain fuel = none) :
    sync_loop source collab s fuel = none := by
  simp [sync_loop, hu]

theorem sync_loop_failed (source : BlockSource) (collab : Collaborator)
    (s : AppState) (fuel : Nat) (c : FlorestaChain) (err : SyncError)
    (hu : update_tip source collab s.chain fuel = some (SyncResult.failed c err)) :
    sync_loop source collab s fuel = some ({ s with chain := c }, some err) := by
  simp [sync_loop, hu]

theorem sync_loop_done (source : BlockSource) (collab : Collaborator)
    (s : AppState) (fuel : Nat) (c : FlorestaChain)
    (hu : update_tip source collab s.chain fuel = some (SyncResult.done c)) :
    sync_loop source collab s fuel =
      some ({ call_update_ui collab
        { s with chain := toggle_ibd c, toggle_count := s.toggle_count + 1 } with
        start_disabled := true }, none) := by
  simp [sync_loop, hu]

theorem step_tick_ibd (source : BlockSource) (collab : Collaborator)
    (fuel : Nat) (s : AppState)
    (hib : (call_update_ui collab s).chain.ibd = true) :
    step source collab fuel s Event.timerTick = some (call_update_ui collab s) := by
  simp [step, hib]

/-- C9: when the sync loop started by a Start click fails with any error, the
initial-sync flag is not toggled, the display is not re-rendered by
`sync_loop`, and the Start button is left as it was; with the flag still set,
a subsequent timer tick only re-renders (the chain untouched) and never
re-invokes the fetch-apply loop, so sync can only resume via a new Start
click. -/
theorem C9_error_keeps_ibd (source : BlockSource) (collab : Collaborator)
    (fuel : Nat) (s s' : AppState) (err : SyncError)
    (hibd : s.chain.ibd = true)
    (hfail : sync_loop source collab s fuel = some (s', some err)) :
    s'.toggle_count = s.toggle_count ∧
    s'.chain.ibd = true ∧
    s'.start_disabled = s.start_disabled ∧
    s'.render_calls = s.render_calls ∧
    (∀ (src2 : BlockSource) (fuel2 : Nat),
      step src2 collab fuel2 s' Event.timerTick = some (call_update_ui collab s') ∧
      (call_update_ui collab s').chain = s'.chain) := by
  cases hu : update_tip source collab s.chain fuel with
  | none =>
    rw [sync_loop_none source collab s fuel hu] at hfail
    cases hfail
  | some r =>
    cases r with
    | done c =>
      rw [sync_loop_done source collab s fuel c hu] at hfail
      simp at hfail
    | failed c err2 =>
      rw [sync_loop_failed source collab s fuel c err2 hu] at hfail
      injection hfail with h1
      injection h1 with ha hb
      have hcibd : c.ibd = true := by
        have hp := update_tip_loop_ibd source collab fuel s.chain
          (s.chain.height + 1) (SyncResult.failed c err2) hu
        exact hp.trans hibd
      subst ha
      refine ⟨rfl, hcibd, rfl, rfl, ?_⟩
      intro src2 fuel2
      refine ⟨?_, call_update_ui_chain collab _⟩
      apply step_tick_ibd
      rw [call_update_ui_chain]
      exact hcibd

/-- C9 witness: after a Start click whose first fetch hits a network error,
the flag is untouched and a tick only re-renders. -/
theorem C9_witness :
    failedW.toggle_count = (run collabAll).toggle_count ∧
    failedW.chain.ibd = true ∧
    failedW.start_disabled = (run collabAll).start_disabled ∧
    failedW.render_calls = (run collabAll).render_calls ∧
    step srcEmpty collabAll 1 failedW Event.timerTick =
      some (call_update_ui collabAll failedW) ∧
    (call_update_ui collabAll failedW).chain = failedW.chain := by
  have H := C9_error_keeps_ibd srcDown collabAll 1 (run collabAll) failedW
    (SyncError.transport 1) rfl rfl
  exact ⟨H.1, H.2.1, H.2.2.1, H.2.2.2.1,
    (H.2.2.2.2 srcEmpty 1).1, (H.2.2.2.2 srcEmpty 1).2⟩

/-! ## The interleaved model: counting and branch lemmas -/

theorem clickCount_append (l1 l2 : List SyncTask) :
    clickCount (l1 ++ l2) = clickCount l1 + clickCount l2 := by
  simp [clickCount, List.countP_append]

theorem clickCount_click_singleton (n : Nat) :
    clickCount [⟨TaskKind.fromClick, n⟩] = 1 := rfl

theorem clickCount_tick_singleton (n : Nat) :
    clickCount [⟨TaskKind.fromTick, n⟩] = 0 := rfl

theorem clickCount_eraseIdx :
    ∀ (l : List SyncTask) (i : Nat) (t : SyncTask), l.get? i = some t →
      clickCount l = clickCount (l.eraseIdx i) + clickCount [t] := by
  intro l
  induction l with
  | nil => intro i t h; cases h
  | cons x xs ih =>
    intro i t h
    cases i with
    | zero =>
      have hx : x = t := by simpa using h
      subst hx
      show clickCount (x :: xs) = clickCount xs + clickCount [x]
      simp [clickCount, List.countP_cons]
    | succ j =>
      have h' : xs.get? j = some t := h
      have hrec := ih j t h'
      show clickCount (x :: xs) = clickCount (x :: xs.eraseIdx j) + clickCount [t]
      simp only [clickCount, List.countP_cons, List.countP_nil, Nat.zero_add] at hrec ⊢
      rw [hrec]
      ring

theorem clickCount_eraseIdx_le (l : List SyncTask) :
    ∀ i : Nat, clickCount (l.eraseIdx i) ≤ clickCount l := by
  induction l with
  | nil => intro i; simp [List.eraseIdx]
  | cons x xs ih =>
    intro i
    cases i with
    | zero =>
      show clickCount xs ≤ clickCount (x :: xs)
      simp only [clickCount, List.countP_cons]
      omega
    | succ j =>
      show clickCount (x :: xs.eraseIdx j) ≤ clickCount (x :: xs)
      have := ih j
      simp only [clickCount, List.countP_cons] at this ⊢
      omega

theorem clickCompletion_toggle_count (collab : Collaborator) (app : AppState) :
    (clickCompletion collab app).toggle_count = app.toggle_count + 1 := by
  simp [clickCompletion, call_update_ui_toggle_count]

theorem clickCompletion_start_disabled (collab : Collaborator) (app : AppState) :
    (clickCompletion collab app).start_disabled = true := by
  simp [clickCompletion]

theorem astep_click_disabled (collab : Collaborator) (σ : AsyncState)
    (hd : σ.app.start_disabled = true) :
    astep collab σ AEvent.startClick = σ := by
  simp [astep, hd]

theorem astep_click_enabled (collab : Collaborator) (σ : AsyncState)
    (hd : σ.app.start_disabled = false) :
    astep collab σ AEvent.startClick =
      { σ with tasks := σ.tasks ++ [⟨TaskKind.fromClick, σ.app.chain.height + 1⟩] } := by
  simp [astep, hd]

theorem astep_tick_ibd (collab : Collaborator) (σ : AsyncState)
    (hib : (call_update_ui collab σ.app).chain.ibd = true) :
    astep collab σ AEvent.timerTick = { σ with app := call_update_ui collab σ.app } := by
  simp [astep, hib]

theorem astep_tick_spawn (collab : Collaborator) (σ : AsyncState)
    (hib : (call_update_ui collab σ.app).chain.ibd = false) :
    astep collab σ AEvent.timerTick =
      { app := call_update_ui collab σ.app,
        tasks := σ.tasks ++
          [⟨TaskKind.fromTick, (call_update_ui collab σ.app).chain.height + 1⟩] } := by
  simp [astep, hib]

theorem astep_respond_missing (collab : Collaborator) (σ : AsyncState)
    (i : Nat) (o : FetchOutcome) (hget : σ.tasks.get? i = none) :
    astep collab σ (AEvent.respond i o) = σ := by
  simp only [astep]
  rw [hget]

theorem astep_respond_transport (collab : Collaborator) (σ : AsyncState)
    (i : Nat) (o : FetchOutcome) (t : SyncTask)
    (hget : σ.tasks.get? i = some t)
    (hcl : classify_response o = FetchResult.transportError) :
    astep collab σ (AEvent.respond i o) = { σ with tasks := σ.tasks.eraseIdx i } := by
  simp only [astep]
  rw [hget]
  simp [hcl]

theorem astep_respond_absent_tick (collab : Collaborator) (σ : AsyncState)
    (i : Nat) (o : FetchOutcome) (t : SyncTask)
    (hget : σ.tasks.get? i = some t)
    (hcl : classify_response o = FetchResult.absent)
    (hk : t.kind = TaskKind.fromTick) :
    astep collab σ (AEvent.respond i o) = { σ with tasks := σ.tasks.eraseIdx i } := by
  simp only [astep]
  rw [hget]
  simp [hcl, hk]

theorem astep_respond_absent_click (collab : Collaborator) (σ : AsyncState)
    (i : Nat) (o : FetchOutcome) (t : SyncTask)
    (hget : σ.tasks.get? i = some t)
    (hcl : classify_response o = FetchResult.absent)
    (hk : t.kind = TaskKind.fromClick) :
    astep collab σ (AEvent.respond i o) =
      { app := clickCompletion collab σ.app, tasks := σ.tasks.eraseIdx i } := by
  simp only [astep]
  rw [hget]
  simp [hcl, hk]

theorem astep_respond_accept (collab : Collaborator) (σ : AsyncState)
    (i : Nat) (o : FetchOutcome) (t : SyncTask) (d : JsonVal) (c' : FlorestaChain)
    (hget : σ.tasks.get? i = some t)
    (hcl : classify_response o = FetchResult.present d)
    (hacc : accept_block collab σ.app.chain d.stringify = Except.ok c') :
    astep collab σ (AEvent.respond i o) =
      { app := { σ.app with chain := c' },
        tasks := σ.tasks.eraseIdx i ++ [⟨t.kind, t.height + 1⟩] } := by
  simp only [astep]
  rw [hget]
  simp [hcl, hacc]

theorem astep_respond_reject (collab : Collaborator) (σ : AsyncState)
    (i : Nat) (o : FetchOutcome) (t : SyncTask) (d : JsonVal) (err : Unit)
    (hget : σ.tasks.get? i = some t)
    (hcl : classify_response o = FetchResult.present d)
    (hacc : accept_block collab σ.app.chain d.stringify = Except.error err) :
    astep collab σ (AEvent.respond i o) = { σ with tasks := σ.tasks.eraseIdx i } := by
  simp only [astep]
  rw [hget]
  simp [hcl, hacc]

/-- Invariant of click-serialized interleaved sessions: either the toggle has
never fired (initial sync, Start enabled, at most one click-started loop in
flight) or it has fired exactly once (Start disabled, no click-started loop
left). -/
def AInv (σ : AsyncState) : Prop :=
  (σ.app.toggle_count = 0 ∧ σ.app.chain.ibd = true ∧ σ.app.start_disabled = false ∧
    clickCount σ.tasks ≤ 1) ∨
  (σ.app.toggle_count = 1 ∧ σ.app.start_disabled = true ∧ clickCount σ.tasks = 0)

theorem run_toggle_count (collab : Collaborator) : (run collab).toggle_count = 0 := by
  show (call_update_ui collab
    { chain := newFlorestaChain collab, last_tip := 0, start_disabled := true,
      wallet_field := "", rendered := [], render_calls := 0,
      toggle_count := 0 }).toggle_count = 0
  rw [call_update_ui_toggle_count]

theorem run_ibd (collab : Collaborator) : (run collab).chain.ibd = true := by
  show (call_update_ui collab
    { chain := newFlorestaChain collab, last_tip := 0, start_disabled := true,
      wallet_field := "", rendered := [], render_calls := 0,
      toggle_count := 0 }).chain.ibd = true
  rw [call_update_ui_chain]
  rfl

theorem asyncInit_inv (collab : Collaborator) : AInv (asyncInit collab) := by
  left
  refine ⟨run_toggle_count collab, run_ibd collab, rfl, ?_⟩
  show clickCount [] ≤ 1
  simp [clickCount]

theorem AInv_erase (σ : AsyncState) (i : Nat) (hinv : AInv σ) :
    AInv { σ with tasks := σ.tasks.eraseIdx i } := by
  have hle := clickCount_eraseIdx_le σ.tasks i
  rcases hinv with ⟨ht, hi, hd, hc⟩ | ⟨ht, hd, hc⟩
  · left
    refine ⟨ht, hi, hd, ?_⟩
    show clickCount (σ.tasks.eraseIdx i) ≤ 1
    omega
  · right
    refine ⟨ht, hd, ?_⟩
    show clickCount (σ.tasks.eraseIdx i) = 0
    omega

theorem astep_inv (collab : Collaborator) (σ : AsyncState) (e : AEvent)
    (hinv : AInv σ) (hser : e = AEvent.startClick → clickCount σ.tasks = 0) :
    AInv (astep collab σ e) := by
  cases e with
  | startClick =>
    have hc0 : clickCount σ.tasks = 0 := hser rfl
    cases hd : σ.app.start_disabled with
    | true =>
      rw [astep_click_disabled collab σ hd]
      exact hinv
    | false =>
      rw [astep_click_enabled collab σ hd]
      rcases hinv with ⟨ht, hi, _, _⟩ | ⟨_, hdis, _⟩
      · left
        refine ⟨ht, hi, hd, ?_⟩
        show clickCount (σ.tasks ++ [⟨TaskKind.fromClick, σ.app.chain.height + 1⟩]) ≤ 1
        rw [clickCount_append, hc0, clickCount_click_singleton]
      · rw [hdis] at hd
        cases hd
  | timerTick =>
    cases hib : (call_update_ui collab σ.app).chain.ibd with
    | true =>
      rw [astep_tick_ibd collab σ hib]
      rcases hinv with ⟨ht, _, hd, hc⟩ | ⟨ht, hd, hc⟩
      · left
        refine ⟨?_, hib, ?_, hc⟩
        · show (call_update_ui collab σ.app).toggle_count = 0
          rw [call_update_ui_toggle_count]
          exact ht
        · show (call_update_ui collab σ.app).start_disabled = false
          rw [call_update_ui_start_disabled]
          exact hd
      · right
        refine ⟨?_, ?_, hc⟩
        · show (call_update_ui collab σ.app).toggle_count = 1
          rw [call_update_ui_toggle_count]
          exact ht
        · show (call_update_ui collab σ.app).start_disabled = true
          rw [call_update_ui_start_disabled]
          exact hd
    | false =>
      rw [astep_tick_spawn collab σ hib]
      rcases hinv with ⟨_, hi, _, _⟩ | ⟨ht, hd, hc⟩
      · rw [call_update_ui_chain] at hib
        rw [hi] at hib
        cases hib
      · right
        refine ⟨?_, ?_, ?_⟩
        · show (call_update_ui collab σ.app).toggle_count = 1
          rw [call_update_ui_toggle_count]
          exact ht
        · show (call_update_ui collab σ.app).start_disabled = true
          rw [call_update_ui_start_disabled]
          exact hd
        · show clickCount (σ.tasks ++
            [⟨TaskKind.fromTick, (call_update_ui collab σ.app).chain.height + 1⟩]) = 0
          rw [clickCount_append, hc, clickCount_tick_singleton]
  | respond i o =>
    cases hget : σ.tasks.get? i with
    | none =>
      rw [astep_respond_missing collab σ i o hget]
      exact hinv
    | some t =>
      obtain ⟨k, n⟩ := t
      have hcnt := clickCount_eraseIdx σ.tasks i ⟨k, n⟩ hget
      cases hcl : classify_response o with
      | transportError =>
        rw [astep_respond_transport collab σ i o ⟨k, n⟩ hget hcl]
        exact AInv_erase σ i hinv
      | absent =>
        cases k with
        | fromTick =>
          rw [astep_respond_absent_tick collab σ i o ⟨TaskKind.fromTick, n⟩ hget hcl rfl]
          exact AInv_erase σ i hinv
        | fromClick =>
          rw [astep_respond_absent_click collab σ i o ⟨TaskKind.fromClick, n⟩ hget hcl rfl]
          rw [clickCount_click_singleton] at hcnt
          rcases hinv with ⟨ht, _, _, hc⟩ | ⟨_, _, hc⟩
          · right
            refine ⟨?_, ?_, ?_⟩
            · show (clickCompletion collab σ.app).toggle_count = 1
              rw [clickCompletion_toggle_count, ht]
            · show (clickCompletion collab σ.app).start_disabled = true
              rw [clickCompletion_start_disabled]
            · show clickCount (σ.tasks.eraseIdx i) = 0
              omega
          · exfalso
            omega
      | present d =>
        cases hacc : accept_block collab σ.app.chain d.stringify with
        | ok c' =>
          rw [astep_respond_accept collab σ i o ⟨k, n⟩ d c' hget hcl hacc]
          have hibd' := accept_block_ibd collab σ.app.chain c' d.stringify hacc
          have hsame : clickCount [(⟨k, n + 1⟩ : SyncTask)] =
              clickCount [(⟨k, n⟩ : SyncTask)] := by
            cases k <;> rfl
          rcases hinv with ⟨ht, hi, hd, hc⟩ | ⟨ht, hd, hc⟩
          · left
            refine ⟨ht, ?_, hd, ?_⟩
            · show c'.ibd = true
              rw [hibd']
              exact hi
            · show clickCount (σ.tasks.eraseIdx i ++ [⟨k, n + 1⟩]) ≤ 1
              rw [clickCount_append, hsame]
              omega
          · right
            refine ⟨ht, hd, ?_⟩
            show clickCount (σ.tasks.eraseIdx i ++ [⟨k, n + 1⟩]) = 0
            rw [clickCount_append, hsame]
            omega
        | error err =>
          rw [astep_respond_reject collab σ i o ⟨k, n⟩ d err hget hcl hacc]
          exact AInv_erase σ i hinv

theorem runAEvents_inv (collab : Collaborator) :
    ∀ (events : List AEvent) (σ : AsyncState), AInv σ →
      clickSerialized collab σ events = true → AInv (runAEvents collab σ events) := by
  intro events
  induction events with
  | nil =>
    intro σ h _
    exact h
  | cons e rest ih =>
    intro σ h hser
    cases e with
    | startClick =>
      simp only [clickSerialized, Bool.and_eq_true] at hser
      have h0 : clickCount σ.tasks = 0 := by
        have := hser.1
        simpa using this
      exact ih _ (astep_inv collab σ AEvent.startClick h (fun _ => h0)) hser.2
    | timerTick =>
      simp only [clickSerialized] at hser
      exact ih _ (astep_inv collab σ AEvent.timerTick h
        (fun hq => AEvent.noConfusion hq)) hser
    | respond i o =>
      simp only [clickSerialized] at hser
      exact ih _ (astep_inv collab σ (AEvent.respond i o) h
        (fun hq => AEvent.noConfusion hq)) hser

/-- C3 counterexample: the claimed process-lifetime at-most-once bound on
`toggle_ibd` fails.  The Start button stays enabled while a click-started
loop is suspended at its awaited fetch (main.js disables it only at line 98,
after the loop completes), so a second Start click can race the first; with
no block at height 1 yet, both loops break on their empty-body responses and
each runs `toggle_ibd` — two toggles (and `ibd` ends up true again) in one
session of user start actions. -/
theorem C3_counterexample :
    (runAEvents collabAll (asyncInit collabAll) asyncEventsW).app.toggle_count = 2 ∧
    ¬ (runAEvents collabAll (asyncInit collabAll) asyncEventsW).app.toggle_count ≤ 1 := by
  decide

/-- C3 amended: in every click-serialized session — no Start click dispatched
while a click-started loop is still in flight, the busy guard the spec
recommends — `toggle_ibd` is invoked at most once per process lifetime; and
a loop re-invoked by a timer tick never contributes a toggle at all, since
resuming a tick-started loop leaves the toggle count unchanged whatever the
response. -/
theorem C3_serialized_toggle_at_most_once (collab : Collaborator)
    (events : List AEvent)
    (hser : clickSerialized collab (asyncInit collab) events = true) :
    (runAEvents collab (asyncInit collab) events).app.toggle_count ≤ 1 ∧
    (∀ (σ : AsyncState) (i : Nat) (o : FetchOutcome) (t : SyncTask),
      σ.tasks.get? i = some t → t.kind = TaskKind.fromTick →
      (astep collab σ (AEvent.respond i o)).app.toggle_count = σ.app.toggle_count) := by
  constructor
  · rcases runAEvents_inv collab events (asyncInit collab) (asyncInit_inv collab) hser with
      ⟨h0, _, _, _⟩ | ⟨h1, _, _⟩
    · omega
    · omega
  · intro σ i o t hget hk
    obtain ⟨k, n⟩ := t
    have hk' : k = TaskKind.fromTick := hk
    subst hk'
    cases hcl : classify_response o with
    | transportError =>
      rw [astep_respond_transport collab σ i o ⟨TaskKind.fromTick, n⟩ hget hcl]
    | absent =>
      rw [astep_respond_absent_tick collab σ i o ⟨TaskKind.fromTick, n⟩ hget hcl rfl]
    | present d =>
      cases hacc : accept_block collab σ.app.chain d.stringify with
      | ok c' =>
        rw [astep_respond_accept collab σ i o ⟨TaskKind.fromTick, n⟩ d c' hget hcl hacc]
      | error err =>
        rw [astep_respond_reject collab σ i o ⟨TaskKind.fromTick, n⟩ d err hget hcl hacc]

/-- C3 witness: a serialized single-click session ends with at most one
toggle, and resuming a pending tick-started loop leaves the count where it
was. -/
theorem C3_witness :
    (runAEvents collabAll (asyncInit collabAll) serializedEventsW).app.toggle_count ≤ 1 ∧
    (astep collabAll tickTaskStateW
        (AEvent.respond 0 (FetchOutcome.ok (JsonVal.obj [])))).app.toggle_count =
      tickTaskStateW.app.toggle_count :=
  ⟨(C3_serialized_toggle_at_most_once collabAll serializedEventsW (by decide)).1,
   (C3_serialized_toggle_at_most_once collabAll serializedEventsW (by decide)).2
     tickTaskStateW 0 (FetchOutcome.ok (JsonVal.obj [])) ⟨TaskKind.fromTick, 1⟩ rfl rfl⟩
